import Mathlib

/-!
Verification of the texture-synthesis postprocessing pipeline
(`src/nvpostprocess`): the Text2Tex-style orchestration script
`text2tex/generate_texture.py` and the meshlab re-texturing utility
`texturing/texturing_with_meshlab.py`.

The orchestration script imports its algorithmic helpers
(`render_one_view_and_build_masks`, `backproject_from_image`,
`select_viewpoint`, `apply_controlnet_depth`, ...) from a `lib` package
that is not part of this repository's sources; where a claim depends on
such a helper, the helper is modelled from the specification (each such
definition is marked `Modelled from the spec:`).  Everything else is a
direct shallow embedding of the Python sources.
-/

/-- Pixel/texel colors, abstracted to naturals (RGB values play no role in
any verified property). -/
abbrev Color := Nat

/-- Boolean pixel/texel rasters (`*_mask_tensor` values, flattened). -/
abbrev Mask := List Bool

/-- Embeds `tensor.sum()` on a 0/1 mask tensor: the number of `true`
entries. -/
def maskSum (m : Mask) : Nat := m.countP (· = true)

/-- Embeds `np.ones_like(mask)`: an all-ones mask of the same shape. -/
def allOnesLike (m : Mask) : Mask := List.replicate m.length true

/-- Embeds `mask[mask == 1] = 0` (generate_texture.py line 564): an
all-zero mask of the same shape. -/
def zeroedLike (m : Mask) : Mask := List.replicate m.length false

lemma getD_range_map {α : Type} (n : Nat) (g : Nat → α) (i : Nat) (d : α) :
    ((List.range n).map g).getD i d = if i < n then g i else d := by
  by_cases h : i < n
  · rw [List.getD_eq_getElem?_getD, List.getElem?_map, List.getElem?_range h]
    simp [h]
  · rw [List.getD_eq_default]
    · simp [h]
    · simpa using Nat.le_of_not_lt h

lemma getD_false_of_le {m : Mask} {i : Nat} (h : m.length ≤ i) :
    m.getD i false = false :=
  List.getD_eq_default _ _ h

lemma lt_length_of_getD_true {m : Mask} {i : Nat}
    (h : m.getD i false = true) : i < m.length := by
  by_contra hc
  rw [getD_false_of_le (Nat.le_of_not_lt hc)] at h
  exact Bool.false_ne_true h

/-- The three-way per-texel classification of the MaskCompositor. -/
inductive TexelClass where
  | generate
  | update
  | keep
deriving DecidableEq

/-- Modelled from the spec: the per-pixel decision rule of
`render_one_view_and_build_masks` (lib.projection_helper, imported by
generate_texture.py but not part of this repository's sources).  Spec
section 4.2: never painted (existence = false) means generate; painted and
the current view's similarity exceeds the recorded best similarity by more
than view_threshold means update; otherwise keep. -/
def classifyTexel (existence : Bool) (sim best thr : ℚ) : TexelClass :=
  if existence = false then TexelClass.generate
  else if best + thr < sim then TexelClass.update
  else TexelClass.keep

/-- Modelled from the spec: the per-pixel data a rendered view exposes to
the MaskCompositor — coverage (the pixel lies on the object), the atlas
existence flag, the current view's similarity and the atlas best
similarity, all resampled into pixel space. -/
structure Fragment where
  covered : Mask
  existence : Mask
  sim : List ℚ
  best : List ℚ

/-- Class assigned by the compositor to pixel `i` of fragment `f`. -/
def classAt (f : Fragment) (thr : ℚ) (i : Nat) : TexelClass :=
  classifyTexel (f.existence.getD i false) (f.sim.getD i 0) (f.best.getD i 0) thr

/-- Modelled from the spec: the `generate` mask — covered pixels classified
generate. -/
def generateMask (f : Fragment) (thr : ℚ) : Mask :=
  (List.range f.covered.length).map fun i =>
    f.covered.getD i false && decide (classAt f thr i = TexelClass.generate)

/-- Modelled from the spec: the `update` mask — covered pixels classified
update. -/
def updateMask (f : Fragment) (thr : ℚ) : Mask :=
  (List.range f.covered.length).map fun i =>
    f.covered.getD i false && decide (classAt f thr i = TexelClass.update)

/-- Modelled from the spec: the `keep` mask — covered pixels classified
keep. -/
def keepMask (f : Fragment) (thr : ℚ) : Mask :=
  (List.range f.covered.length).map fun i =>
    f.covered.getD i false && decide (classAt f thr i = TexelClass.keep)

/-- Modelled from the spec: the `all` mask is every covered, non-background
pixel of the view. -/
def allMask (f : Fragment) : Mask := f.covered

lemma classifyTexel_generate_iff (e : Bool) (sim best thr : ℚ) :
    decide (classifyTexel e sim best thr = TexelClass.generate) = !e := by
  cases e <;> by_cases hc : best + thr < sim <;> simp [classifyTexel, hc]

lemma classifyTexel_update_iff (e : Bool) (sim best thr : ℚ) :
    decide (classifyTexel e sim best thr = TexelClass.update) =
      (e && decide (best + thr < sim)) := by
  cases e <;> by_cases hc : best + thr < sim <;> simp [classifyTexel, hc]

lemma classifyTexel_keep_iff (e : Bool) (sim best thr : ℚ) :
    decide (classifyTexel e sim best thr = TexelClass.keep) =
      (e && !decide (best + thr < sim)) := by
  cases e <;> by_cases hc : best + thr < sim <;> simp [classifyTexel, hc]

lemma generateMask_getD (f : Fragment) (thr : ℚ) (i : Nat) :
    (generateMask f thr).getD i false =
      (f.covered.getD i false && !(f.existence.getD i false)) := by
  rw [generateMask, getD_range_map]
  by_cases h : i < f.covered.length
  · rw [if_pos h, classAt, classifyTexel_generate_iff]
  · rw [if_neg h, getD_false_of_le (Nat.le_of_not_lt h)]
    simp

lemma updateMask_getD (f : Fragment) (thr : ℚ) (i : Nat) :
    (updateMask f thr).getD i false =
      (f.covered.getD i false && (f.existence.getD i false &&
        decide (f.best.getD i 0 + thr < f.sim.getD i 0))) := by
  rw [updateMask, getD_range_map]
  by_cases h : i < f.covered.length
  · rw [if_pos h, classAt, classifyTexel_update_iff]
  · rw [if_neg h, getD_false_of_le (Nat.le_of_not_lt h)]
    simp

lemma keepMask_getD (f : Fragment) (thr : ℚ) (i : Nat) :
    (keepMask f thr).getD i false =
      (f.covered.getD i false && (f.existence.getD i false &&
        !decide (f.best.getD i 0 + thr < f.sim.getD i 0))) := by
  rw [keepMask, getD_range_map]
  by_cases h : i < f.covered.length
  · rw [if_pos h, classAt, classifyTexel_keep_iff]
  · rw [if_neg h, getD_false_of_le (Nat.le_of_not_lt h)]
    simp

/-- C1: every covered pixel is assigned exactly one of the three classes —
generate iff never painted, update iff painted and the view's similarity
exceeds the recorded best by more than the threshold, keep otherwise — so
the three masks are pairwise disjoint and their union is exactly `all`. -/
theorem c1_mask_three_way_partition (f : Fragment) (thr : ℚ) (i : Nat) :
    ((generateMask f thr).getD i false = true ↔
      (allMask f).getD i false = true ∧ f.existence.getD i false = false)
    ∧ ((updateMask f thr).getD i false = true ↔
      (allMask f).getD i false = true ∧ f.existence.getD i false = true ∧
        f.best.getD i 0 + thr < f.sim.getD i 0)
    ∧ ((keepMask f thr).getD i false = true ↔
      (allMask f).getD i false = true ∧ f.existence.getD i false = true ∧
        ¬(f.best.getD i 0 + thr < f.sim.getD i 0))
    ∧ ¬((generateMask f thr).getD i false = true ∧
        (updateMask f thr).getD i false = true)
    ∧ ¬((generateMask f thr).getD i false = true ∧
        (keepMask f thr).getD i false = true)
    ∧ ¬((updateMask f thr).getD i false = true ∧
        (keepMask f thr).getD i false = true)
    ∧ ((generateMask f thr).getD i false || (updateMask f thr).getD i false
        || (keepMask f thr).getD i false) = (allMask f).getD i false := by
  rw [generateMask_getD, updateMask_getD, keepMask_getD, allMask]
  rcases Bool.eq_false_or_eq_true (f.covered.getD i false) with hcov | hcov <;>
    rcases Bool.eq_false_or_eq_true (f.existence.getD i false) with hx | hx <;>
      by_cases hc : f.best.getD i 0 + thr < f.sim.getD i 0 <;>
        (simp only [List.getD_eq_getElem?_getD] at hcov hx
         simp [hcov, hx, hc])

/-- The command-line flags of generate_texture.py that steer the control
flow verified here (init_args). -/
structure Args where
  no_repaint : Bool
  no_update : Bool
  post_process : Bool
  use_shapenet : Bool
  use_objaverse : Bool
  update_steps : Nat
deriving DecidableEq

/-- Embeds generate_texture.py line 269:
`NUM_PRINCIPLE = 10 if args.use_shapenet or args.use_objaverse else 6`. -/
def NUM_PRINCIPLE (args : Args) : Nat :=
  if args.use_shapenet || args.use_objaverse then 10 else 6

/-- The per-view mask set returned by `render_one_view_and_build_masks`
to the main script (keep / update / generate / all mask tensors);
in the refinement phase the keep mask is bound as `old_mask_tensor`. -/
structure ViewMasks where
  keep : Mask
  update : Mask
  generate : Mask
  all : Mask
deriving DecidableEq

/-- The externally observable actions the main script performs for one
view: a call to the depth-conditioned inpainter (`apply_controlnet_depth`,
with its inpaint mask and keep mask), a back-projection write into the
texture atlas (`backproject_from_image`, with its projection mask), or
the one-shot texture post-process (`apply_inpainting_postprocess`, with
its inpaint mask). -/
inductive Event where
  | inpaint (mask keepm : Mask)
  | merge (mask : Mask)
  | postInpaint (mask : Mask)
deriving DecidableEq

/-- True exactly on inpainter-call events. -/
def isInpaintEvent : Event → Bool
  | Event.inpaint _ _ => true
  | _ => false

/-- True exactly on post-process inpainter events. -/
def isPostEvent : Event → Bool
  | Event.postInpaint _ => true
  | _ => false

/-- Embeds the guard of generate_texture.py lines 363 and 549:
`not args.no_update and update_mask_tensor.sum() > 0 and
update_mask_tensor.sum() / (all_mask_tensor.sum()) > 0.05`. -/
def updateCond (args : Args) (vm : ViewMasks) : Bool :=
  !args.no_update && decide (0 < maskSum vm.update) &&
    decide ((1 : ℚ)/20 < (maskSum vm.update : ℚ) / (maskSum vm.all : ℚ))

/-- Embeds generate_texture.py lines 312-316: under `--no_repaint` every
view except the first replaces the computed generate mask by an all-ones
mask for the inpainting call. -/
def actualGenerateMaskImage (no_repaint : Bool) (view_idx : Nat) (gen : Mask) : Mask :=
  if no_repaint ∧ view_idx ≠ 0 then allOnesLike gen else gen

/-- Embeds one iteration of the generation loop of generate_texture.py
(lines 286-410), as the sequence of inpainter calls and atlas writes it
performs: the generate inpaint (line 319, unconditional) with the possibly
substituted mask, the generate back-projection (line 330, unconditional,
always with the computed generate mask), then — only under the update
guard of line 363 — the update inpaint (line 365) and update
back-projection (line 376). -/
def genViewStep (args : Args) (view_idx : Nat) (vm : ViewMasks) : List Event :=
  [Event.inpaint (actualGenerateMaskImage args.no_repaint view_idx vm.generate) vm.keep,
   Event.merge vm.generate] ++
  (if updateCond args vm then
    [Event.inpaint vm.update vm.keep, Event.merge vm.update]
   else [])

/-- Embeds one iteration of the refinement loop of generate_texture.py
(lines 463-607): under the update guard of line 549 the update inpaint
(line 551) runs and the back-projection (line 572) uses the update mask;
otherwise the inpainter is skipped, the update mask is zeroed in place
(line 564) and the back-projection still runs with that zeroed mask. -/
def refineViewStep (args : Args) (vm : ViewMasks) : List Event :=
  (if updateCond args vm then [Event.inpaint vm.update vm.keep] else []) ++
  [Event.merge (if updateCond args vm then vm.update else zeroedLike vm.update)]

/-- Event trace of the generation loop, started at view index `i`, given
the mask sets the renderer produces for the successive views. -/
def genPhaseTrace (args : Args) : Nat → List ViewMasks → List Event
  | _, [] => []
  | i, vm :: rest => genViewStep args i vm ++ genPhaseTrace args (i + 1) rest

/-- Event trace of the refinement loop, given the mask sets the renderer
produces for the successively selected views. -/
def refinePhaseTrace (args : Args) : List ViewMasks → List Event
  | [] => []
  | vm :: rest => refineViewStep args vm ++ refinePhaseTrace args rest

/-- Embeds generate_texture.py lines 612-625: under `--post_process` the
script invokes the inpainting model once on the texture atlas with mask
`1 - exist_texture`, the complement of the existence mask. -/
def postTrace (args : Args) (exist : Mask) : List Event :=
  if args.post_process then [Event.postInpaint (exist.map not)] else []

/-- Event trace of the whole OPERATION ZONE of generate_texture.py: the
generation loop, then — only when `update_steps > 0` (line 419) — the
refinement loop followed by the optional post-process (line 612). -/
def mainTrace (args : Args) (genVms refineVms : List ViewMasks)
    (finalExist : Mask) : List Event :=
  genPhaseTrace args 0 genVms ++
  (if 0 < args.update_steps then
    refinePhaseTrace args refineVms ++ postTrace args finalExist
   else [])

/-- Embeds the `for view_idx in range(NUM_PRINCIPLE)` loop access pattern
of generate_texture.py lines 286-290: successively index positions
`0, 1, ..., n-1` of the (already truncated) viewpoint list, failing if an
index is out of range. -/
def visitLoop {α : Type} (l : List α) : Nat → Option (List α)
  | 0 => some []
  | n + 1 =>
    match visitLoop l n, l[n]? with
    | some xs, some x => some (xs ++ [x])
    | _, _ => none

/-- The viewpoints the generation phase visits, in visiting order: the
loop of lines 286-290 over the prefix lists `pre_*_list = *_list[:NUM_PRINCIPLE]`
of lines 270-274. -/
def genPhaseVisited {α : Type} (args : Args) (vps : List α) : Option (List α) :=
  visitLoop (vps.take (NUM_PRINCIPLE args)) (NUM_PRINCIPLE args)

lemma visitLoop_eq_take {α : Type} (l : List α) (n : Nat) (h : n ≤ l.length) :
    visitLoop l n = some (l.take n) := by
  induction n with
  | zero => simp [visitLoop]
  | succ k ih =>
    have hk : k ≤ l.length := Nat.le_of_succ_le h
    have hkl : k < l.length := Nat.lt_of_succ_le h
    have hget : l[k]? = some (l.get ⟨k, hkl⟩) := List.getElem?_eq_getElem hkl
    rw [visitLoop, ih hk, hget, List.take_succ, hget]
    rfl

/-- C3: provided enough viewpoints were constructed, the generation phase
visits exactly the first `NUM_PRINCIPLE` viewpoints of the constructed
sequence — 10 for ShapeNet/Objaverse assets, 6 otherwise — strictly in
construction order, with no dynamic selection. -/
theorem c3_generation_visits_fixed_prefix {α : Type} (args : Args)
    (vps : List α) (h : NUM_PRINCIPLE args ≤ vps.length) :
    genPhaseVisited args vps = some (vps.take (NUM_PRINCIPLE args))
    ∧ (args.use_shapenet = true ∨ args.use_objaverse = true →
        NUM_PRINCIPLE args = 10)
    ∧ (args.use_shapenet = false ∧ args.use_objaverse = false →
        NUM_PRINCIPLE args = 6) := by
  refine ⟨?_, ?_, ?_⟩
  · have hlen : NUM_PRINCIPLE args ≤ (vps.take (NUM_PRINCIPLE args)).length := by
      rw [List.length_take]
      exact le_min le_rfl h
    rw [genPhaseVisited, visitLoop_eq_take _ _ hlen, List.take_take, min_self]
  · rintro (hs | ho)
    · simp [NUM_PRINCIPLE, hs]
    · simp [NUM_PRINCIPLE, ho]
  · rintro ⟨hs, ho⟩
    simp [NUM_PRINCIPLE, hs, ho]

/-- Witness for C3 at a concrete argument set and viewpoint list. -/
theorem c3_generation_visits_fixed_prefix_witness :
    genPhaseVisited (Args.mk false false false false false 0)
        [10, 11, 12, 13, 14, 15, 16] =
      some ([10, 11, 12, 13, 14, 15, 16].take
        (NUM_PRINCIPLE (Args.mk false false false false false 0)))
    ∧ ((Args.mk false false false false false 0).use_shapenet = true ∨
        (Args.mk false false false false false 0).use_objaverse = true →
        NUM_PRINCIPLE (Args.mk false false false false false 0) = 10)
    ∧ ((Args.mk false false false false false 0).use_shapenet = false ∧
        (Args.mk false false false false false 0).use_objaverse = false →
        NUM_PRINCIPLE (Args.mk false false false false false 0) = 6) :=
  c3_generation_visits_fixed_prefix _ _ (by decide)

/-- C4: when `--no_repaint` is set, every generation view except view 0 has
its computed generate mask replaced by a forced all-ones mask for the
inpainting call, while view 0 uses the computed mask. -/
theorem c4_no_repaint_forces_all_ones (args : Args) (vm : ViewMasks)
    (view_idx : Nat) (h : args.no_repaint = true) :
    (view_idx ≠ 0 →
      actualGenerateMaskImage args.no_repaint view_idx vm.generate =
        allOnesLike vm.generate
      ∧ (genViewStep args view_idx vm).head? =
          some (Event.inpaint (allOnesLike vm.generate) vm.keep))
    ∧ actualGenerateMaskImage args.no_repaint 0 vm.generate = vm.generate
    ∧ (genViewStep args 0 vm).head? =
        some (Event.inpaint vm.generate vm.keep) := by
  refine ⟨fun hi => ⟨?_, ?_⟩, ?_, ?_⟩
  · rw [actualGenerateMaskImage, if_pos ⟨h, hi⟩]
  · simp [genViewStep, actualGenerateMaskImage, h, hi]
  · simp [actualGenerateMaskImage]
  · simp [genViewStep, actualGenerateMaskImage]

/-- Witness for C4 at a concrete argument set, mask set and view index. -/
theorem c4_no_repaint_forces_all_ones_witness :
    ((1 : Nat) ≠ 0 →
      actualGenerateMaskImage (Args.mk true false false false false 0).no_repaint 1
          (ViewMasks.mk [true] [false] [false, true] [true]).generate =
        allOnesLike (ViewMasks.mk [true] [false] [false, true] [true]).generate
      ∧ (genViewStep (Args.mk true false false false false 0) 1
            (ViewMasks.mk [true] [false] [false, true] [true])).head? =
          some (Event.inpaint
            (allOnesLike (ViewMasks.mk [true] [false] [false, true] [true]).generate)
            (ViewMasks.mk [true] [false] [false, true] [true]).keep))
    ∧ actualGenerateMaskImage (Args.mk true false false false false 0).no_repaint 0
        (ViewMasks.mk [true] [false] [false, true] [true]).generate =
        (ViewMasks.mk [true] [false] [false, true] [true]).generate
    ∧ (genViewStep (Args.mk true false false false false 0) 0
          (ViewMasks.mk [true] [false] [false, true] [true])).head? =
        some (Event.inpaint (ViewMasks.mk [true] [false] [false, true] [true]).generate
          (ViewMasks.mk [true] [false] [false, true] [true]).keep) :=
  c4_no_repaint_forces_all_ones _ _ _ rfl

/-- C2 as stated is false on the code: in the generation phase the generate
inpaint step (generate_texture.py line 319) is unconditional, so a view
whose generate mask is empty still triggers an inpainter call. -/
theorem c2_counterexample :
    maskSum (ViewMasks.mk [true] [false] [false] [true]).generate = 0
    ∧ (genViewStep (Args.mk false false false false false 8) 0
        (ViewMasks.mk [true] [false] [false] [true])).countP isInpaintEvent = 1 := by
  decide

/-- C2 (amended): an empty update mask short-circuits the update
inpainting: in the generation phase the update inpaint and its atlas
back-projection are both skipped (the step reduces to the unconditional
generate inpaint and generate back-projection), and in the refinement
phase the inpaint is skipped while the back-projection still runs with a
zeroed mask; in all cases this is a skip, not an error. -/
theorem c2_empty_update_mask_skips (args : Args) (view_idx : Nat)
    (vm : ViewMasks) (h : maskSum vm.update = 0) :
    genViewStep args view_idx vm =
      [Event.inpaint (actualGenerateMaskImage args.no_repaint view_idx vm.generate)
        vm.keep,
       Event.merge vm.generate]
    ∧ refineViewStep args vm = [Event.merge (zeroedLike vm.update)] := by
  have hcond : updateCond args vm = false := by
    simp [updateCond, h]
  constructor
  · simp [genViewStep, hcond]
  · simp [refineViewStep, hcond]

/-- Witness for C2's amended statement at a concrete empty update mask. -/
theorem c2_empty_update_mask_skips_witness :
    genViewStep (Args.mk false false false false false 8) 2
        (ViewMasks.mk [true, true] [false, false] [false, true] [true, true]) =
      [Event.inpaint
        (actualGenerateMaskImage (Args.mk false false false false false 8).no_repaint 2
          (ViewMasks.mk [true, true] [false, false] [false, true] [true, true]).generate)
        (ViewMasks.mk [true, true] [false, false] [false, true] [true, true]).keep,
       Event.merge
        (ViewMasks.mk [true, true] [false, false] [false, true] [true, true]).generate]
    ∧ refineViewStep (Args.mk false false false false false 8)
        (ViewMasks.mk [true, true] [false, false] [false, true] [true, true]) =
      [Event.merge (zeroedLike
        (ViewMasks.mk [true, true] [false, false] [false, true] [true, true]).update)] :=
  c2_empty_update_mask_skips _ _ _ (by decide)

lemma countP_isPost_genViewStep (args : Args) (i : Nat) (vm : ViewMasks) :
    (genViewStep args i vm).countP isPostEvent = 0 := by
  by_cases hc : updateCond args vm = true <;>
    simp [genViewStep, hc, isPostEvent, List.countP_cons]

lemma countP_isPost_genPhaseTrace (args : Args) :
    ∀ (i : Nat) (vms : List ViewMasks),
      (genPhaseTrace args i vms).countP isPostEvent = 0 := by
  intro i vms
  induction vms generalizing i with
  | nil => simp [genPhaseTrace]
  | cons vm rest ih =>
    rw [genPhaseTrace, List.countP_append, countP_isPost_genViewStep, ih]

lemma countP_isPost_refineViewStep (args : Args) (vm : ViewMasks) :
    (refineViewStep args vm).countP isPostEvent = 0 := by
  by_cases hc : updateCond args vm = true <;>
    simp [refineViewStep, hc, isPostEvent, List.countP_cons]

lemma countP_isPost_refinePhaseTrace (args : Args) :
    ∀ vms : List ViewMasks,
      (refinePhaseTrace args vms).countP isPostEvent = 0 := by
  intro vms
  induction vms with
  | nil => simp [refinePhaseTrace]
  | cons vm rest ih =>
    rw [refinePhaseTrace, List.countP_append, countP_isPost_refineViewStep, ih]

/-- C8: with post-processing enabled and a non-empty refinement phase, the
run's trace ends with exactly one post-process inpainter invocation, over
exactly the complement of the existence mask; no other step of either
phase invokes the post-process inpainter. -/
theorem c8_post_process_invoked_once (args : Args)
    (genVms refineVms : List ViewMasks) (finalExist : Mask)
    (h1 : args.post_process = true) (h2 : 0 < args.update_steps) :
    mainTrace args genVms refineVms finalExist =
      (genPhaseTrace args 0 genVms ++ refinePhaseTrace args refineVms) ++
        [Event.postInpaint (finalExist.map not)]
    ∧ (genPhaseTrace args 0 genVms ++
        refinePhaseTrace args refineVms).countP isPostEvent = 0
    ∧ (mainTrace args genVms refineVms finalExist).countP isPostEvent = 1 := by
  have hmain : mainTrace args genVms refineVms finalExist =
      (genPhaseTrace args 0 genVms ++ refinePhaseTrace args refineVms) ++
        [Event.postInpaint (finalExist.map not)] := by
    rw [mainTrace, if_pos h2, postTrace, if_pos h1, List.append_assoc]
  have hzero : (genPhaseTrace args 0 genVms ++
      refinePhaseTrace args refineVms).countP isPostEvent = 0 := by
    rw [List.countP_append, countP_isPost_genPhaseTrace,
      countP_isPost_refinePhaseTrace]
  refine ⟨hmain, hzero, ?_⟩
  rw [hmain, List.countP_append, hzero]
  simp [isPostEvent, List.countP_cons]

/-- Witness for C8 at a concrete argument set and final existence mask. -/
theorem c8_post_process_invoked_once_witness :
    mainTrace (Args.mk false false true false false 1) [] [] [true, false] =
      (genPhaseTrace (Args.mk false false true false false 1) 0 [] ++
        refinePhaseTrace (Args.mk false false true false false 1) []) ++
        [Event.postInpaint ([true, false].map not)]
    ∧ (genPhaseTrace (Args.mk false false true false false 1) 0 [] ++
        refinePhaseTrace (Args.mk false false true false false 1) []).countP
          isPostEvent = 0
    ∧ (mainTrace (Args.mk false false true false false 1) [] []
        [true, false]).countP isPostEvent = 1 :=
  c8_post_process_invoked_once _ _ _ _ rfl (by decide)

/-- The mutable shared state of the run (`init_texture`, `exist_texture`
and the per-texel best-similarity record), flattened to texel lists. -/
structure Atlas where
  color : List Color
  exist : List Bool
  best : List ℚ
deriving DecidableEq

/-- Modelled from the spec: the atlas update performed by
`backproject_from_image` (lib.projection_helper, imported by
generate_texture.py but not part of this repository's sources).  Spec
section 4.4: under the write mask the texel color is copied from the
image, existence is set to true, and best-similarity becomes the max of
the previous record and the view's similarity; texels outside the write
mask are untouched. -/
def backprojectMerge (a : Atlas) (img : List Color) (mask : Mask)
    (sim : List ℚ) : Atlas where
  color := (List.range a.color.length).map fun i =>
    if mask.getD i false then img.getD i 0 else a.color.getD i 0
  exist := (List.range a.exist.length).map fun i =>
    mask.getD i false || a.exist.getD i false
  best := (List.range a.best.length).map fun i =>
    if mask.getD i false then max (a.best.getD i 0) (sim.getD i 0)
    else a.best.getD i 0

/-- A whole run's worth of back-projection merges (generation and
refinement both write to the atlas only through `backproject_from_image`):
each step carries the inpainted image, the write mask and the view's
similarity raster. -/
def mergeRun : Atlas → List (List Color × Mask × List ℚ) → Atlas
  | a, [] => a
  | a, s :: rest => mergeRun (backprojectMerge a s.1 s.2.1 s.2.2) rest

lemma backprojectMerge_exist_getD (a : Atlas) (img : List Color)
    (mask : Mask) (sim : List ℚ) (i : Nat) :
    (backprojectMerge a img mask sim).exist.getD i false =
      if i < a.exist.length then (mask.getD i false || a.exist.getD i false)
      else false := by
  rw [backprojectMerge, getD_range_map]

/-- C7: once a texel's existence flag is true, no later back-projection
merge of the run ever resets it — coverage is monotonically
non-decreasing across the whole run. -/
theorem c7_existence_monotone (steps : List (List Color × Mask × List ℚ))
    (a : Atlas) (i : Nat) (h : a.exist.getD i false = true) :
    (mergeRun a steps).exist.getD i false = true := by
  induction steps generalizing a with
  | nil => exact h
  | cons s rest ih =>
    rw [mergeRun]
    refine ih _ ?_
    rw [backprojectMerge_exist_getD, if_pos (lt_length_of_getD_true h), h]
    simp

/-- Witness for C7 at a concrete atlas and merge sequence. -/
theorem c7_existence_monotone_witness :
    (mergeRun (Atlas.mk [7] [true] [0]) [([5], [false], [0])]).exist.getD 0
      false = true :=
  c7_existence_monotone _ _ _ (by decide)

/-- Pixel-space images exchanged with the Inpainter, dimensions made
explicit. -/
structure PImage where
  width : Nat
  height : Nat
  data : List Color
deriving DecidableEq

/-- Modelled from the spec: the fate of one view's inpaint-and-merge step
as a function of the image the Inpainter returns
(`apply_controlnet_depth` lives in lib.diffusion_helper, not under src/).
Spec section 7: an image of mismatched dimensions is fatal for that view's
step — the step is aborted and the atlas is left at its pre-step state;
otherwise the result is merged into the atlas. -/
def inpaintViewStep (merge : Atlas → PImage → Atlas) (atlas : Atlas)
    (rendered result : PImage) : Atlas :=
  if result.width = rendered.width ∧ result.height = rendered.height then
    merge atlas result
  else atlas

/-- A run over a schedule of views, each with its rendered image and the
image the Inpainter returned for it; the run proceeds view by view
regardless of aborted steps. -/
def inpaintRun (merge : Atlas → PImage → Atlas) :
    Atlas → List (PImage × PImage) → Atlas
  | a, [] => a
  | a, v :: rest => inpaintRun merge (inpaintViewStep merge a v.1 v.2) rest

/-- C5: when the Inpainter returns an image whose dimensions differ from
the rendered view's, that view's step leaves the atlas at its pre-step
state, and the run continues with the remaining scheduled views rather
than terminating. -/
theorem c5_dimension_mismatch_aborts_step (merge : Atlas → PImage → Atlas)
    (atlas : Atlas) (rendered result : PImage) (rest : List (PImage × PImage))
    (h : ¬(result.width = rendered.width ∧ result.height = rendered.height)) :
    inpaintViewStep merge atlas rendered result = atlas
    ∧ inpaintRun merge atlas ((rendered, result) :: rest) =
        inpaintRun merge atlas rest := by
  have hstep : inpaintViewStep merge atlas rendered result = atlas := by
    rw [inpaintViewStep, if_neg h]
  exact ⟨hstep, by rw [inpaintRun, hstep]⟩

/-- Witness for C5 at a concrete mismatched inpainter result. -/
theorem c5_dimension_mismatch_aborts_step_witness :
    inpaintViewStep (fun _ _ => Atlas.mk [] [] []) (Atlas.mk [7] [true] [0])
      (PImage.mk 4 4 []) (PImage.mk 3 4 []) = Atlas.mk [7] [true] [0]
    ∧ inpaintRun (fun _ _ => Atlas.mk [] [] []) (Atlas.mk [7] [true] [0])
        [(PImage.mk 4 4 [], PImage.mk 3 4 [])] =
      inpaintRun (fun _ _ => Atlas.mk [] [] []) (Atlas.mk [7] [true] [0]) [] :=
  c5_dimension_mismatch_aborts_step _ _ _ _ _ (by decide)

/-- Modelled from the spec: the refinement-phase scheduling of
`select_viewpoint` (lib.projection_helper, imported by generate_texture.py
but not part of this repository's sources) in its list-order (sequential)
reading.  Spec sections 4.3 and 7: visit remaining viewpoints in list
order, truncating to `update_steps`; when more steps are requested than
viewpoints remain, the schedule clamps to the available count rather than
erroring. -/
def scheduleRefinementViews {α : Type} : Nat → List α → List α
  | 0, _ => []
  | _ + 1, [] => []
  | n + 1, c :: cs => c :: scheduleRefinementViews n cs

lemma scheduleRefinementViews_length {α : Type} :
    ∀ (steps : Nat) (cands : List α),
      (scheduleRefinementViews steps cands).length = min steps cands.length := by
  intro steps
  induction steps with
  | zero => intro cands; simp [scheduleRefinementViews]
  | succ n ih =>
    intro cands
    cases cands with
    | nil => simp [scheduleRefinementViews]
    | cons c cs =>
      rw [scheduleRefinementViews]
      simp [ih cs, Nat.succ_min_succ]

lemma scheduleRefinementViews_of_le {α : Type} :
    ∀ (steps : Nat) (cands : List α), cands.length ≤ steps →
      scheduleRefinementViews steps cands = cands := by
  intro steps
  induction steps with
  | zero =>
    intro cands h
    rw [List.length_eq_zero.mp (Nat.le_zero.mp h)]
    simp [scheduleRefinementViews]
  | succ n ih =>
    intro cands h
    cases cands with
    | nil => simp [scheduleRefinementViews]
    | cons c cs =>
      rw [scheduleRefinementViews, ih cs (Nat.le_of_succ_le_succ h)]

/-- C6: a refinement schedule asked for more steps than there are
remaining viewpoints executes exactly one step per remaining viewpoint —
the step count is clamped to the available count, with no error. -/
theorem c6_refinement_steps_clamped {α : Type} (steps : Nat)
    (cands : List α) (h : cands.length < steps) :
    scheduleRefinementViews steps cands = cands
    ∧ (scheduleRefinementViews steps cands).length = cands.length := by
  have he : scheduleRefinementViews steps cands = cands :=
    scheduleRefinementViews_of_le _ _ (Nat.le_of_lt h)
  exact ⟨he, by rw [he]⟩

/-- Witness for C6 at a concrete oversized step request. -/
theorem c6_refinement_steps_clamped_witness :
    scheduleRefinementViews 5 [10, 20, 30] = [10, 20, 30]
    ∧ (scheduleRefinementViews 5 [10, 20, 30]).length = [10, 20, 30].length :=
  c6_refinement_steps_clamped 5 [10, 20, 30] (by decide)

/-- Errors raised by pymeshlab calls in texturing_with_meshlab.py: the
`PyMeshLabException` type that the `except` clause of auto_texture
catches, versus every other exception type. -/
inductive MLError where
  | pyMeshLab (msg : String)
  | other (msg : String)
deriving DecidableEq

/-- The pymeshlab MeshSet operations auto_texture performs, as an
external-collaborator interface over an abstract mesh-set state `σ`;
each call either returns the new state or raises. -/
structure MeshLabOps (σ : Type) where
  load_new_mesh : String → Except MLError σ
  compute_texcoord_by_function_per_vertex : σ → Except MLError σ
  compute_texcoord_transfer_vertex_to_wedge : σ → Except MLError σ
  compute_texcoord_parametrization_triangle_trivial_per_wedge :
    σ → Nat → Except MLError σ
  compute_texmap_from_color : σ → String → Nat → Nat → Bool → Except MLError σ
  save_current_mesh : σ → String → Except MLError σ

/-- Embeds `Path.with_suffix`: replace the suffix after the last dot of the
name (or append the suffix when the name has none). -/
def with_suffix (s suffix : String) : String :=
  match s.splitOn "." with
  | [] => s ++ suffix
  | [x] => x ++ suffix
  | parts => String.intercalate "." parts.dropLast ++ suffix

/-- Embeds texturing_with_meshlab.py lines 22-27: strip `_mesh` and `_pc`
from the OBJ name and give it a `.png` suffix. -/
def textname (obj_name : String) : String :=
  with_suffix ((obj_name.replace "_mesh" "").replace "_pc" "") ".png"

/-- Embeds the try/except of texturing_with_meshlab.py lines 38-51:
compute the texture map from vertex color with `overwrite=True`; if and
only if that raises a `PyMeshLabException`, retry once with
`overwrite=False` and otherwise identical arguments; any other exception,
and any exception of the retry, propagates. -/
def texmapWithRetry {σ : Type} (ops : MeshLabOps σ) (ms : σ) (tn : String)
    (res : Nat) : Except MLError σ :=
  match ops.compute_texmap_from_color ms tn res res true with
  | Except.ok ms2 => Except.ok ms2
  | Except.error (MLError.pyMeshLab _) =>
      ops.compute_texmap_from_color ms tn res res false
  | Except.error (MLError.other m) => Except.error (MLError.other m)

/-- Embeds texturing_with_meshlab.py lines 19-54 (the pymeshlab pipeline
inside the chdir block of auto_texture), with the pymeshlab library as an
abstract collaborator. -/
def auto_texture {σ : Type} (ops : MeshLabOps σ) (obj_name : String)
    (resolution : Nat) : Except MLError σ := do
  let tn := textname obj_name
  let ms ← ops.load_new_mesh obj_name
  let ms ← ops.compute_texcoord_by_function_per_vertex ms
  let ms ← ops.compute_texcoord_transfer_vertex_to_wedge ms
  let ms ← ops.compute_texcoord_parametrization_triangle_trivial_per_wedge
    ms resolution
  let ms ← texmapWithRetry ops ms tn resolution
  ops.save_current_mesh ms (with_suffix obj_name ".pt.obj")

lemma except_bind_ok {ε α β : Type} (a : α) (f : α → Except ε β) :
    (Except.ok a : Except ε α) >>= f = f a := rfl

lemma except_bind_error {ε α β : Type} (e : ε) (f : α → Except ε β) :
    (Except.error e : Except ε α) >>= f = Except.error e := rfl

/-- C9: if computing the texture map with `overwrite=True` raises a
`PyMeshLabException`, the computation is retried exactly once with
`overwrite=False` and otherwise identical arguments; a success or an
exception of any other type is passed through untouched; and every
exception that escapes a pymeshlab call — from each of the other five
calls of the pipeline, reached with the preceding calls succeeded, and
from the retry itself — propagates to auto_texture's caller as
auto_texture's result. -/
theorem c9_texmap_retry_once {σ : Type} (ops : MeshLabOps σ) (ms : σ)
    (tn : String) (res : Nat) (obj_name : String) (r : Nat) :
    (∀ m : String,
      ops.compute_texmap_from_color ms tn res res true =
          Except.error (MLError.pyMeshLab m) →
        texmapWithRetry ops ms tn res =
          ops.compute_texmap_from_color ms tn res res false)
    ∧ (∀ ms2 : σ,
        ops.compute_texmap_from_color ms tn res res true = Except.ok ms2 →
        texmapWithRetry ops ms tn res = Except.ok ms2)
    ∧ (∀ m : String,
        ops.compute_texmap_from_color ms tn res res true =
            Except.error (MLError.other m) →
        texmapWithRetry ops ms tn res = Except.error (MLError.other m))
    ∧ (∀ e : MLError,
        ops.load_new_mesh obj_name = Except.error e →
        auto_texture ops obj_name r = Except.error e)
    ∧ (∀ (ms1 : σ) (e : MLError),
        ops.load_new_mesh obj_name = Except.ok ms1 →
        ops.compute_texcoord_by_function_per_vertex ms1 = Except.error e →
        auto_texture ops obj_name r = Except.error e)
    ∧ (∀ (ms1 ms2 : σ) (e : MLError),
        ops.load_new_mesh obj_name = Except.ok ms1 →
        ops.compute_texcoord_by_function_per_vertex ms1 = Except.ok ms2 →
        ops.compute_texcoord_transfer_vertex_to_wedge ms2 = Except.error e →
        auto_texture ops obj_name r = Except.error e)
    ∧ (∀ (ms1 ms2 ms3 : σ) (e : MLError),
        ops.load_new_mesh obj_name = Except.ok ms1 →
        ops.compute_texcoord_by_function_per_vertex ms1 = Except.ok ms2 →
        ops.compute_texcoord_transfer_vertex_to_wedge ms2 = Except.ok ms3 →
        ops.compute_texcoord_parametrization_triangle_trivial_per_wedge ms3 r =
          Except.error e →
        auto_texture ops obj_name r = Except.error e)
    ∧ (∀ (ms1 ms2 ms3 ms4 : σ) (e : MLError),
        ops.load_new_mesh obj_name = Except.ok ms1 →
        ops.compute_texcoord_by_function_per_vertex ms1 = Except.ok ms2 →
        ops.compute_texcoord_transfer_vertex_to_wedge ms2 = Except.ok ms3 →
        ops.compute_texcoord_parametrization_triangle_trivial_per_wedge ms3 r =
          Except.ok ms4 →
        texmapWithRetry ops ms4 (textname obj_name) r = Except.error e →
        auto_texture ops obj_name r = Except.error e)
    ∧ (∀ (ms1 ms2 ms3 ms4 : σ) (m : String) (e : MLError),
        ops.load_new_mesh obj_name = Except.ok ms1 →
        ops.compute_texcoord_by_function_per_vertex ms1 = Except.ok ms2 →
        ops.compute_texcoord_transfer_vertex_to_wedge ms2 = Except.ok ms3 →
        ops.compute_texcoord_parametrization_triangle_trivial_per_wedge ms3 r =
          Except.ok ms4 →
        ops.compute_texmap_from_color ms4 (textname obj_name) r r true =
          Except.error (MLError.pyMeshLab m) →
        ops.compute_texmap_from_color ms4 (textname obj_name) r r false =
          Except.error e →
        auto_texture ops obj_name r = Except.error e)
    ∧ (∀ (ms1 ms2 ms3 ms4 ms5 : σ) (e : MLError),
        ops.load_new_mesh obj_name = Except.ok ms1 →
        ops.compute_texcoord_by_function_per_vertex ms1 = Except.ok ms2 →
        ops.compute_texcoord_transfer_vertex_to_wedge ms2 = Except.ok ms3 →
        ops.compute_texcoord_parametrization_triangle_trivial_per_wedge ms3 r =
          Except.ok ms4 →
        texmapWithRetry ops ms4 (textname obj_name) r = Except.ok ms5 →
        ops.save_current_mesh ms5 (with_suffix obj_name ".pt.obj") =
          Except.error e →
        auto_texture ops obj_name r = Except.error e) := by
  refine ⟨fun m hm => ?_, fun ms2 hok => ?_, fun m hm => ?_,
    fun e h1 => ?_, fun ms1 e h1 h2 => ?_, fun ms1 ms2 e h1 h2 h3 => ?_,
    fun ms1 ms2 ms3 e h1 h2 h3 h4 => ?_,
    fun ms1 ms2 ms3 ms4 e h1 h2 h3 h4 h5 => ?_,
    fun ms1 ms2 ms3 ms4 m e h1 h2 h3 h4 h5 h6 => ?_,
    fun ms1 ms2 ms3 ms4 ms5 e h1 h2 h3 h4 h5 h6 => ?_⟩
  · rw [texmapWithRetry, hm]
  · rw [texmapWithRetry, hok]
  · rw [texmapWithRetry, hm]
  · simp only [auto_texture, h1, except_bind_error]
  · simp only [auto_texture, h1, except_bind_ok, h2, except_bind_error]
  · simp only [auto_texture, h1, h2, except_bind_ok, h3, except_bind_error]
  · simp only [auto_texture, h1, h2, h3, except_bind_ok, h4, except_bind_error]
  · simp only [auto_texture, h1, h2, h3, h4, except_bind_ok, h5,
      except_bind_error]
  · have hr : texmapWithRetry ops ms4 (textname obj_name) r =
        Except.error e := by
      rw [texmapWithRetry, h5]
      exact h6
    simp only [auto_texture, h1, h2, h3, h4, except_bind_ok, hr,
      except_bind_error]
  · simp only [auto_texture, h1, h2, h3, h4, h5, except_bind_ok, h6]

/-- A concrete pymeshlab backend for the C9 witness: texture-map
computation raises a PyMeshLabException when `overwrite=True` and a
different (uncaught) exception when `overwrite=False`; every other call
succeeds. -/
def mlOpsW : MeshLabOps Nat :=
  MeshLabOps.mk (fun _ => Except.ok 0) (fun s => Except.ok s)
    (fun s => Except.ok s) (fun s _ => Except.ok s)
    (fun _ _ _ _ ow =>
      if ow then Except.error (MLError.pyMeshLab "e")
      else Except.error (MLError.other "disk"))
    (fun s _ => Except.ok s)

/-- Witness for C9: on the concrete backend the failed overwrite=True call
is retried as the overwrite=False call with identical arguments, and the
retry's own error becomes auto_texture's result. -/
theorem c9_texmap_retry_once_witness :
    texmapWithRetry mlOpsW 0 "t.png" 4 =
      mlOpsW.compute_texmap_from_color 0 "t.png" 4 4 false
    ∧ auto_texture mlOpsW "x.obj" 4 = Except.error (MLError.other "disk") :=
  ⟨(c9_texmap_retry_once mlOpsW 0 "t.png" 4 "x.obj" 4).1 "e" rfl,
   (c9_texmap_retry_once mlOpsW 0 "t.png" 4 "x.obj" 4).2.2.2.2.2.2.2.2.1
     0 0 0 0 "e" (MLError.other "disk") rfl rfl rfl rfl rfl rfl⟩

/-- Process state as far as the chdir context manager observes it: the
current working directory. -/
structure Proc where
  cwd : String
deriving DecidableEq

/-- Embeds `os.chdir(x)`. -/
def os_chdir (x : String) (_ : Proc) : Proc := Proc.mk x

/-- Embeds the chdir context manager of texturing_with_meshlab.py lines
9-16: record the current directory, change to `x`, run the managed block
(which may itself change directory and may raise — its outcome is the
`Except` value), and in all cases change back to the recorded directory
before propagating the block's outcome. -/
def chdir {α ε : Type} (x : String) (body : Proc → Except ε α × Proc)
    (s : Proc) : Except ε α × Proc :=
  let d := s.cwd
  let r := body (os_chdir x s)
  (r.1, os_chdir d r.2)

/-- C10: the chdir context manager always restores the original working
directory, whether the managed block completes normally or raises; the
block's outcome (value or exception) is propagated unchanged. -/
theorem c10_chdir_restores_cwd {α ε : Type} (x : String)
    (body : Proc → Except ε α × Proc) (s : Proc) :
    ((chdir x body s).2).cwd = s.cwd
    ∧ (chdir x body s).1 = (body (os_chdir x s)).1 :=
  ⟨rfl, rfl⟩

/-- Witness for C10 with a concrete block that changes directory and then
raises. -/
theorem c10_chdir_restores_cwd_witness :
    ((chdir "/tmp/w"
        (fun _ => ((Except.error 3 : Except Nat Nat), Proc.mk "/elsewhere"))
        (Proc.mk "/home")).2).cwd = (Proc.mk "/home").cwd
    ∧ (chdir "/tmp/w"
        (fun _ => ((Except.error 3 : Except Nat Nat), Proc.mk "/elsewhere"))
        (Proc.mk "/home")).1 =
      ((fun _ => ((Except.error 3 : Except Nat Nat), Proc.mk "/elsewhere"))
        (os_chdir "/tmp/w" (Proc.mk "/home"))).1 :=
  c10_chdir_restores_cwd "/tmp/w"
    (fun _ => ((Except.error 3 : Except Nat Nat), Proc.mk "/elsewhere"))
    (Proc.mk "/home")
